import Mathlib

/-!
# Verification of the Venom-Bot bulk-messaging system

Shallow embedding of the campaign engine of the repository
`well-pharmacy/Venom-Bot-Bulk-Messaging-System` (TypeScript), together with
theorems settling the frozen claims about it.

Embedded modules:
* `config.ts` — the configuration record, `getRandomDelay`,
  `shouldTakeBatchBreak`, `getRandomTemplate` and the template list;
* `src/validators.ts` — `cleanPhoneNumber`, `formatPhoneNumber`
  (phone strings are modelled as `List Char`; the JS regex
  regex that deletes every non-digit becomes a filter on digit characters);
* `src/progressTracker.ts` — `ProgressState`, `recordResult`,
  `recordSkipped`, `incrementBatch`, `getFailedCustomers`, `saveProgress`
  (`Date` fields are omitted: the code never branches on them and the
  model has no clock; file writes are modelled as an explicit trace of
  filesystem operations);
* `index.ts` — `sendMessageWithRetry` and the dispatch loop
  `sendMessagesToCustomers` (the external Venom transport is modelled by
  an oracle giving the outcome of each attempt; `Math.random` draws are an
  injected stream of rationals in `[0,1)`);
* `src/csvParser.ts` — the duplicate-code filter of `parseCSV`
  (rows are modelled after field assembly, i.e. as `Customer` records;
  the character-level line splitting is not needed by any claim).
-/

/- ### Configuration (config.ts) -/

/-- Embeds `config.timing` of config.ts.  Durations are in milliseconds,
modelled as integers (JS numbers holding integral values). -/
structure TimingConfig where
  delayBetweenMessagesMin : Int
  delayBetweenMessagesMax : Int
  batchSize : Nat
  delayBetweenBatches : Int
  initialWarmupDelay : Int
  retryDelay : Int
deriving Repr, DecidableEq

/-- Embeds `config.errorHandling` of config.ts. -/
structure ErrorHandlingConfig where
  maxRetries : Nat
  continueOnError : Bool
  saveFailedCustomers : Bool
deriving Repr, DecidableEq

/-- Embeds `config.message` of config.ts (template file path omitted: it
only feeds file I/O). -/
structure MessageConfig where
  defaultTemplate : String
  maxLength : Nat
deriving Repr, DecidableEq

/-- Embeds `config.validation` of config.ts.  The country code is a
character list, like the phone strings it is matched against. -/
structure ValidationConfig where
  countryCode : List Char
  phoneNumberLength : Nat
  skipInvalidNumbers : Bool
  preferMobileOverPhone : Bool
deriving Repr, DecidableEq

/-- Embeds `config.rateLimiting` of config.ts. -/
structure RateLimitingConfig where
  enabled : Bool
  maxMessagesPerDay : Nat
  maxMessagesPerHour : Nat
deriving Repr, DecidableEq

/-- The configuration record of config.ts (session and logging sections
omitted: they configure only browser start-up and log rendering). -/
structure Config where
  timing : TimingConfig
  message : MessageConfig
  errorHandling : ErrorHandlingConfig
  validation : ValidationConfig
  rateLimiting : RateLimitingConfig
deriving Repr, DecidableEq

/-- The concrete `config` value exported by config.ts. -/
def config : Config :=
  { timing :=
      { delayBetweenMessagesMin := 5000
        delayBetweenMessagesMax := 12000
        batchSize := 20
        delayBetweenBatches := 120000
        initialWarmupDelay := 15000
        retryDelay := 30000 }
    message :=
      { defaultTemplate := "مرحباً {CustomerName}،\n\nنود أن نشكرك على كونك عميلاً مميزاً لدينا.\n\nرقم العميل: {Code}\n\nنتطلع لخدمتك دائماً."
        maxLength := 1000 }
    errorHandling :=
      { maxRetries := 3
        continueOnError := true
        saveFailedCustomers := true }
    validation :=
      { countryCode := ['2', '0']
        phoneNumberLength := 12
        skipInvalidNumbers := true
        preferMobileOverPhone := true }
    rateLimiting :=
      { enabled := true
        maxMessagesPerDay := 500
        maxMessagesPerHour := 100 } }

/-- The `messageTemplates` array exported by config.ts. -/
def messageTemplates : List String :=
  [ "مرحباً {CustomerName}،\n\nشكراً لك على ثقتك بنا.\nرقم العميل: {Code}"
  , "عزيزي {CustomerName}،\n\nنحن سعداء بخدمتك.\nكود العميل: {Code}"
  , "أهلاً {CustomerName}،\n\nنتمنى أن تكون بخير.\nرقمك لدينا: {Code}" ]

/- ### Phone-number utilities (src/validators.ts) -/

/-- Embeds `cleanPhoneNumber` of validators.ts: the replace-all of the
non-digit regex by the empty string, keeping only decimal digits. -/
def cleanPhoneNumber (phone : List Char) : List Char :=
  phone.filter Char.isDigit

/-- JS `String.startsWith`, on character lists. -/
def startsWith : List Char → List Char → Bool
  | [], _ => true
  | _ :: _, [] => false
  | p :: ps, c :: cs => p == c && startsWith ps cs

/-- Embeds `formatPhoneNumber` of validators.ts: clean, then either replace a
leading `0` by the configured country code, or prepend the country code
when it is missing. -/
def formatPhoneNumber (phone : List Char) : List Char :=
  let cleaned := cleanPhoneNumber phone
  if startsWith ['0'] cleaned then
    config.validation.countryCode ++ cleaned.drop 1
  else if !(startsWith config.validation.countryCode cleaned) then
    config.validation.countryCode ++ cleaned
  else
    cleaned


/- ### Data model (src/types.ts) -/

/-- A CSV row after field assembly (`Customer` of types.ts). -/
structure Customer where
  Code : String
  CustomerName : String
  Phone : String
  Mobile : String
deriving Repr, DecidableEq

/-- Embeds `ProcessedCustomer` of types.ts. -/
structure ProcessedCustomer extends Customer where
  selectedPhone : String
  formattedPhone : String
  isValid : Bool
  validationError : Option String
deriving Repr, DecidableEq

/-- Embeds `MessageResult` of types.ts (the `timestamp : Date` field is omitted:
the model has no clock and nothing branches on it). -/
structure MessageResult where
  customer : ProcessedCustomer
  success : Bool
  error : Option String
  retryCount : Nat
deriving Repr, DecidableEq

/- ### Progress tracker (src/progressTracker.ts) -/

/-- Embeds `ProgressState` of types.ts (minus `startTime : Date`).
`lastProcessedIndex` starts at `-1`, hence is an integer. -/
structure ProgressState where
  totalCustomers : Nat
  processedCustomers : Nat
  successfulSends : Nat
  failedSends : Nat
  skippedCustomers : Nat
  lastProcessedIndex : Int
  currentBatch : Nat
deriving Repr, DecidableEq

/-- The state built by the `ProgressTracker` constructor. -/
def initialProgressState : ProgressState :=
  { totalCustomers := 0
    processedCustomers := 0
    successfulSends := 0
    failedSends := 0
    skippedCustomers := 0
    lastProcessedIndex := -1
    currentBatch := 0 }

/-- The `ProgressTracker` instance fields: `state`, `messageResults`,
`delays` (the progress-file path is a constant, modelled separately). -/
structure Tracker where
  state : ProgressState
  messageResults : List MessageResult
  delays : List Int
deriving Repr, DecidableEq

/-- A freshly constructed `ProgressTracker`. -/
def initialTracker : Tracker :=
  { state := initialProgressState, messageResults := [], delays := [] }

/-- Embeds the total-setting operation of the tracker (named
`initProgress` here): it sets `totalCustomers` (and the start time, not
modelled). -/
def initProgress (t : Tracker) (totalCustomers : Nat) : Tracker :=
  { t with state := { t.state with totalCustomers := totalCustomers } }

/-- Embeds `ProgressTracker.recordResult(result, delay)`: push the result and the
delay, bump `processedCustomers`, bump exactly one of
`successfulSends`/`failedSends`, refresh `lastProcessedIndex`.  (The
save-every-10-messages call touches only the filesystem.) -/
def recordResult (t : Tracker) (result : MessageResult) (delayMs : Int) : Tracker :=
  let s0 := t.state
  let s1 := { s0 with processedCustomers := s0.processedCustomers + 1 }
  let s2 :=
    if result.success then { s1 with successfulSends := s1.successfulSends + 1 }
    else { s1 with failedSends := s1.failedSends + 1 }
  let s3 := { s2 with lastProcessedIndex := (s2.processedCustomers : Int) - 1 }
  { state := s3
    messageResults := t.messageResults ++ [result]
    delays := t.delays ++ [delayMs] }

/-- Embeds `ProgressTracker.recordSkipped()`. -/
def recordSkipped (t : Tracker) : Tracker :=
  { t with state :=
      { t.state with
          skippedCustomers := t.state.skippedCustomers + 1
          processedCustomers := t.state.processedCustomers + 1 } }

/-- Embeds `ProgressTracker.incrementBatch()`. -/
def incrementBatch (t : Tracker) : Tracker :=
  { t with state := { t.state with currentBatch := t.state.currentBatch + 1 } }

/-- Embeds `ProgressTracker.getFailedCustomers()`. -/
def getFailedCustomers (t : Tracker) : List ProcessedCustomer :=
  (t.messageResults.filter (fun r => !r.success)).map (fun r => r.customer)

/-- The state-mutating public operations of `ProgressTracker`.
`saveProgress`/`loadProgress`/`clearProgress` touch only the filesystem,
and the getters (`getState`, `getSuccessRate`, `getAverageDelay`,
`calculateETA`, `generateReport`, `getFailedCustomers`, `displayStats`)
read without writing, so none of them appears here. -/
inductive TrackerOp where
  | initOp (totalCustomers : Nat)
  | recordResultOp (result : MessageResult) (delayMs : Int)
  | recordSkippedOp
  | incrementBatchOp
deriving Repr, DecidableEq

/-- Apply one tracker operation. -/
def applyTrackerOp (t : Tracker) : TrackerOp → Tracker
  | .initOp n => initProgress t n
  | .recordResultOp r d => recordResult t r d
  | .recordSkippedOp => recordSkipped t
  | .incrementBatchOp => incrementBatch t

/-- Run a sequence of tracker operations from the freshly constructed
tracker: exactly the reachable tracker states. -/
def runTrackerOps (ops : List TrackerOp) : Tracker :=
  ops.foldl applyTrackerOp initialTracker

/- ### Pacing helpers (config.ts) -/

/-- Embeds `getRandomDelay(isWarmup)` of config.ts with the `Math.random()` draw
`r ∈ [0,1)` injected:
`Math.floor(Math.random() * (max - min + 1)) + min`, or the fixed warmup
delay. -/
def getRandomDelay (cfg : Config) (r : ℚ) (isWarmup : Bool) : Int :=
  if isWarmup then
    cfg.timing.initialWarmupDelay
  else
    Int.floor (r * ((cfg.timing.delayBetweenMessagesMax -
      cfg.timing.delayBetweenMessagesMin + 1 : Int) : ℚ)) +
      cfg.timing.delayBetweenMessagesMin

/-- Embeds `shouldTakeBatchBreak(messageCount)` of config.ts:
`messageCount > 0 && messageCount % config.timing.batchSize === 0`. -/
def shouldTakeBatchBreak (cfg : Config) (messageCount : Nat) : Bool :=
  decide (0 < messageCount) && decide (messageCount % cfg.timing.batchSize = 0)

/-- Embeds `getRandomTemplate()` of config.ts with the `Math.random()` draw
injected: index `Math.floor(r * templates.length)` into the template
list (the non-null assertion `!` is modelled by `getD` with a default
that is never reached for `r ∈ [0,1)`). -/
def getRandomTemplate (r : ℚ) : String :=
  let templates :=
    if messageTemplates.length > 0 then messageTemplates
    else [config.message.defaultTemplate]
  templates.getD (Int.toNat (Int.floor (r * (templates.length : ℚ)))) ""

/- ### Retry coordinator (index.ts, sendMessageWithRetry) -/

/-- What one iteration of the retry loop observes from the transport:
`checkNumberStatus` reports the number unregistered, or the full
check-and-`sendText` pair succeeds, or one of the two calls throws
(caught by the `catch` block with the given message). -/
inductive AttemptOutcome where
  | notRegistered
  | delivered
  | failure (message : String)
deriving Repr, DecidableEq

/-- The observable outcome of `sendMessageWithRetry`: the returned
`MessageResult`, the retry sleeps taken (each of length
`config.timing.retryDelay`), and how many loop iterations (send
attempts) ran. -/
structure RetryRun where
  result : MessageResult
  sleeps : List Int
  attemptsMade : Nat
deriving Repr, DecidableEq

/-- The `for (let attempt = 0; attempt <= maxRetries; attempt++)` loop of
`sendMessageWithRetry`, recursing on the number of iterations left
(`remaining = maxRetries + 1 - attempt` at every call). -/
def sendMessageWithRetryGo (cfg : Config) (transport : Nat → AttemptOutcome)
    (customer : ProcessedCustomer) (lastError : String) (attempt : Nat) :
    Nat → RetryRun
  | 0 =>
      { result :=
          { customer := customer, success := false, error := some lastError
            retryCount := cfg.errorHandling.maxRetries }
        sleeps := [], attemptsMade := 0 }
  | remaining + 1 =>
      match transport attempt with
      | .notRegistered =>
          { result :=
              { customer := customer, success := false
                error := some "Phone number not registered on WhatsApp"
                retryCount := attempt }
            sleeps := [], attemptsMade := 1 }
      | .delivered =>
          { result :=
              { customer := customer, success := true, error := none
                retryCount := attempt }
            sleeps := [], attemptsMade := 1 }
      | .failure msg =>
          if attempt < cfg.errorHandling.maxRetries then
            let rest :=
              sendMessageWithRetryGo cfg transport customer msg (attempt + 1) remaining
            { result := rest.result
              sleeps := cfg.timing.retryDelay :: rest.sleeps
              attemptsMade := rest.attemptsMade + 1 }
          else
            { result :=
                { customer := customer, success := false, error := some msg
                  retryCount := cfg.errorHandling.maxRetries }
              sleeps := [], attemptsMade := 1 }

/-- Embeds `sendMessageWithRetry` of index.ts: run the loop from
`attempt = 0` with an empty `lastError`. -/
def sendMessageWithRetry (cfg : Config) (transport : Nat → AttemptOutcome)
    (customer : ProcessedCustomer) : RetryRun :=
  sendMessageWithRetryGo cfg transport customer "" 0 (cfg.errorHandling.maxRetries + 1)

/- ### Dispatch loop (index.ts, sendMessagesToCustomers) -/

/-- Accumulated observable state of the dispatch loop: the tracker, the
sleeps performed (retry sleeps, pacing sleeps and batch breaks, in
order), and the total number of send attempts handed to the transport. -/
structure RunState where
  tracker : Tracker
  sleeps : List Int
  sendAttempts : Nat
deriving Repr, DecidableEq

/-- One iteration of the `for` loop of `sendMessagesToCustomers`, for the
0-based recipient index `i`: compute `isWarmup := i < 5`, run
`sendMessageWithRetry`, draw `delayMs := getRandomDelay(isWarmup)`,
record the result, then either take the batch break (incrementing the
batch counter) or sleep `delayMs`. -/
def campaignStep (cfg : Config) (transport : Nat → Nat → AttemptOutcome)
    (randoms : Nat → ℚ) (i : Nat) (customer : ProcessedCustomer)
    (st : RunState) : RunState :=
  let isWarmup := decide (i < 5)
  let run := sendMessageWithRetry cfg (transport i) customer
  let delayMs := getRandomDelay cfg (randoms i) isWarmup
  let tracker := recordResult st.tracker run.result delayMs
  if shouldTakeBatchBreak cfg (i + 1) then
    { tracker := incrementBatch tracker
      sleeps := st.sleeps ++ run.sleeps ++ [cfg.timing.delayBetweenBatches]
      sendAttempts := st.sendAttempts + run.attemptsMade }
  else
    { tracker := tracker
      sleeps := st.sleeps ++ run.sleeps ++ [delayMs]
      sendAttempts := st.sendAttempts + run.attemptsMade }

/-- Embeds `sendMessagesToCustomers` of index.ts, started — as `main` does —
from a tracker initialized with the customer count.  `transport i k` is
the outcome of attempt `k` for recipient index `i`; `randoms i` is the
`Math.random()` draw consumed by `getRandomDelay` at index `i`.  The
shutdown flag stays false (no signal arrives in the model). -/
def sendMessagesToCustomers (cfg : Config) (transport : Nat → Nat → AttemptOutcome)
    (randoms : Nat → ℚ) (customers : List ProcessedCustomer) : RunState :=
  customers.enum.foldl
    (fun st ic => campaignStep cfg transport randoms ic.1 ic.2 st)
    { tracker := initProgress initialTracker customers.length
      sleeps := [], sendAttempts := 0 }

/- ### Checkpoint store (src/progressTracker.ts, saveProgress) -/

/-- Filesystem operations visible in `saveProgress` (the vocabulary also
offers `rename`, which an atomic write-temp-then-rename scheme would
use). -/
inductive FsOp where
  | mkdirRecursive (path : String)
  | writeFile (path : String) (content : String)
  | rename (src dst : String)
deriving Repr, DecidableEq

/-- The `progressFile` field of `ProgressTracker`. -/
def progressFile : String := "./data/progress.json"

/-- Embeds `JSON.stringify(this.state, null, 2)` as a rendering that
lists every field of the snapshot (exact JSON whitespace is irrelevant
to the claims). -/
def serializeProgress (s : ProgressState) : String :=
  "\x7b \"totalCustomers\": " ++ toString s.totalCustomers ++
  ", \"processedCustomers\": " ++ toString s.processedCustomers ++
  ", \"successfulSends\": " ++ toString s.successfulSends ++
  ", \"failedSends\": " ++ toString s.failedSends ++
  ", \"skippedCustomers\": " ++ toString s.skippedCustomers ++
  ", \"lastProcessedIndex\": " ++ toString s.lastProcessedIndex ++
  ", \"currentBatch\": " ++ toString s.currentBatch ++ " \x7d"

/-- Embeds `ProgressTracker.saveProgress()`: ensure the data directory exists,
then write the serialized state straight to `progressFile` with
`writeFileSync`. -/
def saveProgress (dirExists : Bool) (s : ProgressState) : List FsOp :=
  (if dirExists then [] else [FsOp.mkdirRecursive "./data"]) ++
    [FsOp.writeFile progressFile (serializeProgress s)]

/- ### Duplicate filtering (src/csvParser.ts, parseCSV) -/

/-- The per-row duplicate check of `parseCSV` (lines 62–69): a row whose
`Code` is already in `seenCodes` is added to the `duplicates` set and
dropped; otherwise its code is remembered and the row kept.  Rows are
modelled after field assembly; returns the kept customers and the
duplicate codes. -/
def parseCSVRows (seenCodes : List String) (duplicates : List String) :
    List Customer → List Customer × List String
  | [] => ([], duplicates)
  | c :: rest =>
      if seenCodes.contains c.Code then
        parseCSVRows seenCodes
          (if duplicates.contains c.Code then duplicates else duplicates ++ [c.Code])
          rest
      else
        let next := parseCSVRows (c.Code :: seenCodes) duplicates rest
        (c :: next.1, next.2)

/-- The duplicate-filtering stage of `parseCSV`, from empty sets. -/
def parseCSV (rows : List Customer) : List Customer × List String :=
  parseCSVRows [] [] rows

/- ### Auxiliary definitions used by the theorems -/

/-- The four counters named by the invariant, as a tuple. -/
def fourCounters (t : Tracker) : Nat × Nat × Nat × Nat :=
  (t.state.processedCustomers, t.state.successfulSends,
   t.state.failedSends, t.state.skippedCustomers)

/-- The invariant `processed == successful + failed + skipped`. -/
def countersBalanced (s : ProgressState) : Prop :=
  s.processedCustomers = s.successfulSends + s.failedSends + s.skippedCustomers

/- ### A concrete recipient for closed evaluations -/

/-- A concrete processed customer used by the closed counterexamples. -/
def testCustomer : ProcessedCustomer :=
  { Code := "1001", CustomerName := "Ahmed", Phone := "01001234567", Mobile := ""
    selectedPhone := "01001234567", formattedPhone := "201001234567"
    isValid := true, validationError := none }

/-- A second concrete customer sharing the formatted phone number of
`testCustomer` but carrying a different customer code. -/
def testCustomerB : ProcessedCustomer :=
  { Code := "1002", CustomerName := "Mona", Phone := "01001234567", Mobile := ""
    selectedPhone := "01001234567", formattedPhone := "201001234567"
    isValid := true, validationError := none }

/-- A run state with a fresh tracker, used by concrete instantiations. -/
def demoRunState : RunState :=
  { tracker := initialTracker, sleeps := [], sendAttempts := 0 }

/-- Recognizer for write operations in a save trace. -/
def FsOp.isWrite : FsOp → Bool
  | .writeFile _ _ => true
  | _ => false

/-- Recognizer for rename operations in a save trace. -/
def FsOp.isRen : FsOp → Bool
  | .rename _ _ => true
  | _ => false

/-- Modelled from the spec: `save(state)` "must be atomic
(write-temp-then-rename or equivalent)" — no write may target the final
progress file directly, and some temporary file is written and then
renamed onto the progress file. -/
def writeTempThenRenameSave (ops : List FsOp) : Prop :=
  (∀ content, FsOp.writeFile progressFile content ∉ ops) ∧
  (∃ tmp content, FsOp.writeFile tmp content ∈ ops ∧ FsOp.rename tmp progressFile ∈ ops)


/- ### Theorems -/

/- ### Helper lemmas on `startsWith` -/

lemma startsWith_append (p rest : List Char) : startsWith p (p ++ rest) = true := by
  induction p with
  | nil => rfl
  | cons c cs ih => simp [startsWith, ih]

lemma startsWith_self (p : List Char) : startsWith p p = true := by
  simpa using startsWith_append p []

lemma startsWith_cons_iff (p : Char) (ps s : List Char) :
    startsWith (p :: ps) s = true ↔
      ∃ t, s = p :: t ∧ startsWith ps t = true := by
  cases s with
  | nil => simp [startsWith]
  | cons c cs =>
      simp only [startsWith, Bool.and_eq_true, beq_iff_eq]
      constructor
      · rintro ⟨rfl, h⟩; exact ⟨cs, rfl, h⟩
      · rintro ⟨t, ht, h⟩
        cases ht
        exact ⟨rfl, h⟩

lemma cleanPhoneNumber_all_digits (phone : List Char) :
    (cleanPhoneNumber phone).all Char.isDigit = true := by
  simp only [cleanPhoneNumber, List.all_eq_true]
  intro c hc
  exact (List.mem_filter.mp hc).2

lemma cleanPhoneNumber_of_all_digits (s : List Char)
    (h : s.all Char.isDigit = true) : cleanPhoneNumber s = s := by
  simp only [List.all_eq_true] at h
  exact List.filter_eq_self.mpr h

lemma formatPhoneNumber_eq_cc_append (phone : List Char) :
    ∃ rest, formatPhoneNumber phone = '2' :: '0' :: rest ∧
      rest.all Char.isDigit = true := by
  have hclean := cleanPhoneNumber_all_digits phone
  simp only [formatPhoneNumber, config]
  split
  · exact ⟨(cleanPhoneNumber phone).drop 1, rfl, by
      simp only [List.all_eq_true] at hclean ⊢
      exact fun c hc => hclean c (List.mem_of_mem_drop hc)⟩
  · split
    · exact ⟨cleanPhoneNumber phone, rfl, hclean⟩
    · rename_i h1 h2
      simp only [Bool.not_eq_true', Bool.not_eq_false] at h2
      rcases (startsWith_cons_iff _ _ _).mp h2 with ⟨t, ht, h2'⟩
      rcases (startsWith_cons_iff _ _ _).mp h2' with ⟨u, hu, _⟩
      refine ⟨u, ?_, ?_⟩
      · rw [ht, hu]
      · simp only [List.all_eq_true] at hclean ⊢
        intro c hc
        exact hclean c (by rw [ht, hu]; simp [hc])

lemma formatPhoneNumber_all_digits (phone : List Char) :
    (formatPhoneNumber phone).all Char.isDigit = true := by
  rcases formatPhoneNumber_eq_cc_append phone with ⟨rest, heq, hrest⟩
  rw [heq]
  simp only [List.all_cons, hrest, Bool.and_true]
  decide

lemma formatPhoneNumber_fixed (u : List Char)
    (hall : ('2' :: '0' :: u).all Char.isDigit = true) :
    formatPhoneNumber ('2' :: '0' :: u) = '2' :: '0' :: u := by
  have hclean : cleanPhoneNumber ('2' :: '0' :: u) = '2' :: '0' :: u :=
    cleanPhoneNumber_of_all_digits _ hall
  simp only [formatPhoneNumber, hclean, config, startsWith,
    show (('0' : Char) == '2') = false from by decide,
    show (('2' : Char) == '2') = true from by decide,
    show (('0' : Char) == '0') = true from by decide,
    Bool.false_and, Bool.true_and, Bool.not_true, if_false]
  simp

/-- C10: for every input string, `formatPhoneNumber` returns an
all-digit string that starts with the configured country code, and
applying it a second time leaves the result unchanged. -/
theorem c10_formatPhoneNumber_digits_countryCode_idem (phone : List Char) :
    (formatPhoneNumber phone).all Char.isDigit = true ∧
    startsWith config.validation.countryCode (formatPhoneNumber phone) = true ∧
    formatPhoneNumber (formatPhoneNumber phone) = formatPhoneNumber phone := by
  rcases formatPhoneNumber_eq_cc_append phone with ⟨rest, heq, _⟩
  have hall := formatPhoneNumber_all_digits phone
  refine ⟨hall, ?_, ?_⟩
  · rw [heq]
    simp [config, startsWith]
  · rw [heq] at hall ⊢
    exact formatPhoneNumber_fixed rest hall


/- ### Helper lemmas for the tracker claims -/



lemma recordResult_counters (t : Tracker) (r : MessageResult) (d : Int) :
    (recordResult t r d).state.processedCustomers = t.state.processedCustomers + 1 ∧
    (recordResult t r d).state.successfulSends =
      t.state.successfulSends + (if r.success then 1 else 0) ∧
    (recordResult t r d).state.failedSends =
      t.state.failedSends + (if r.success then 0 else 1) ∧
    (recordResult t r d).state.skippedCustomers = t.state.skippedCustomers := by
  cases hr : r.success <;> simp [recordResult, hr]

lemma applyTrackerOp_balanced (t : Tracker) (op : TrackerOp)
    (h : countersBalanced t.state) : countersBalanced (applyTrackerOp t op).state := by
  cases op with
  | initOp n =>
      simpa [applyTrackerOp, initProgress, countersBalanced] using h
  | recordResultOp r d =>
      rcases recordResult_counters t r d with ⟨h1, h2, h3, h4⟩
      unfold countersBalanced at h ⊢
      simp only [applyTrackerOp]
      rw [h1, h2, h3, h4]
      cases r.success <;> simp <;> omega
  | recordSkippedOp =>
      unfold countersBalanced at h ⊢
      simp [applyTrackerOp, recordSkipped]
      omega
  | incrementBatchOp =>
      simpa [applyTrackerOp, incrementBatch, countersBalanced] using h

lemma runTrackerOps_balanced (ops : List TrackerOp) :
    countersBalanced (runTrackerOps ops).state := by
  have main : ∀ t : Tracker, countersBalanced t.state →
      countersBalanced ((ops.foldl applyTrackerOp t)).state := by
    induction ops with
    | nil => exact fun t h => h
    | cons op rest ih =>
        intro t h
        exact ih _ (applyTrackerOp_balanced t op h)
  exact main initialTracker (by simp [initialTracker, initialProgressState, countersBalanced])

/-- C1: every reachable tracker state satisfies
`processed == successful + failed + skipped`; `recordResult` and
`recordSkipped` each bump `processedCustomers` by exactly one and exactly
one of `successfulSends`/`failedSends`/`skippedCustomers` by exactly one;
and the remaining mutating operations (`initialize` of the total,
`incrementBatch`) leave all four counters unchanged. -/
theorem c1_tracker_counter_invariant :
    (∀ ops : List TrackerOp,
      (runTrackerOps ops).state.processedCustomers =
        (runTrackerOps ops).state.successfulSends +
          (runTrackerOps ops).state.failedSends +
          (runTrackerOps ops).state.skippedCustomers) ∧
    (∀ (t : Tracker) (r : MessageResult) (d : Int),
      (recordResult t r d).state.processedCustomers = t.state.processedCustomers + 1 ∧
      (recordResult t r d).state.successfulSends =
        t.state.successfulSends + (if r.success then 1 else 0) ∧
      (recordResult t r d).state.failedSends =
        t.state.failedSends + (if r.success then 0 else 1) ∧
      (recordResult t r d).state.skippedCustomers = t.state.skippedCustomers) ∧
    (∀ t : Tracker,
      (recordSkipped t).state.processedCustomers = t.state.processedCustomers + 1 ∧
      (recordSkipped t).state.skippedCustomers = t.state.skippedCustomers + 1 ∧
      (recordSkipped t).state.successfulSends = t.state.successfulSends ∧
      (recordSkipped t).state.failedSends = t.state.failedSends) ∧
    (∀ (t : Tracker) (n : Nat), fourCounters (initProgress t n) = fourCounters t) ∧
    (∀ t : Tracker, fourCounters (incrementBatch t) = fourCounters t) := by
  refine ⟨fun ops => runTrackerOps_balanced ops, recordResult_counters, ?_, ?_, ?_⟩
  · intro t
    refine ⟨rfl, rfl, rfl, rfl⟩
  · intro t n
    rfl
  · intro t
    rfl


/-- C2 counterexample: with the transport reporting the number
unregistered, the run over one recipient records it as failed — the
skipped counter stays 0 and the failed counter becomes 1, contradicting
the claim that the skipped counter is incremented and the failed counter
unchanged.  (`recordSkipped` is never invoked by the dispatch loop.) -/
theorem c2_counterexample_unregistered_counted_failed :
    (sendMessagesToCustomers config (fun _ _ => .notRegistered) (fun _ => 0)
        [testCustomer]).tracker.state.skippedCustomers = 0 ∧
    (sendMessagesToCustomers config (fun _ _ => .notRegistered) (fun _ => 0)
        [testCustomer]).tracker.state.failedSends = 1 ∧
    (sendMessagesToCustomers config (fun _ _ => .notRegistered) (fun _ => 0)
        [testCustomer]).sendAttempts = 1 ∧
    ¬ ((sendMessagesToCustomers config (fun _ _ => .notRegistered) (fun _ => 0)
        [testCustomer]).tracker.state.skippedCustomers = 1 ∧
       (sendMessagesToCustomers config (fun _ _ => .notRegistered) (fun _ => 0)
        [testCustomer]).tracker.state.failedSends = 0) := by
  decide

/-- C2 (amended): a recipient whose address the transport reports as not
registered terminates immediately — exactly one attempt, no retry
sleeps — but the outcome is recorded as a failure: the failed counter is
incremented and the skipped counter is unchanged. -/
theorem c2_unregistered_immediate_failed (cfg : Config)
    (transport : Nat → AttemptOutcome) (c : ProcessedCustomer)
    (t : Tracker) (d : Int) (h : transport 0 = .notRegistered) :
    (sendMessageWithRetry cfg transport c).attemptsMade = 1 ∧
    (sendMessageWithRetry cfg transport c).sleeps = [] ∧
    (sendMessageWithRetry cfg transport c).result.success = false ∧
    (sendMessageWithRetry cfg transport c).result.retryCount = 0 ∧
    (recordResult t (sendMessageWithRetry cfg transport c).result d).state.failedSends
      = t.state.failedSends + 1 ∧
    (recordResult t (sendMessageWithRetry cfg transport c).result d).state.skippedCustomers
      = t.state.skippedCustomers := by
  have hrun : sendMessageWithRetry cfg transport c =
      { result :=
          { customer := c, success := false
            error := some "Phone number not registered on WhatsApp"
            retryCount := 0 }
        sleeps := [], attemptsMade := 1 } := by
    unfold sendMessageWithRetry
    rw [show cfg.errorHandling.maxRetries + 1 =
          cfg.errorHandling.maxRetries + 1 from rfl]
    simp [sendMessageWithRetryGo, h]
  rw [hrun]
  simp [recordResult]

/-- C2 amended-claim witness at a concrete input. -/
theorem c2_unregistered_witness :
    (sendMessageWithRetry config (fun _ => .notRegistered) testCustomer).attemptsMade = 1 ∧
    (sendMessageWithRetry config (fun _ => .notRegistered) testCustomer).sleeps = [] ∧
    (sendMessageWithRetry config (fun _ => .notRegistered) testCustomer).result.success = false ∧
    (sendMessageWithRetry config (fun _ => .notRegistered) testCustomer).result.retryCount = 0 ∧
    (recordResult initialTracker
      (sendMessageWithRetry config (fun _ => .notRegistered) testCustomer).result 0).state.failedSends
      = initialTracker.state.failedSends + 1 ∧
    (recordResult initialTracker
      (sendMessageWithRetry config (fun _ => .notRegistered) testCustomer).result 0).state.skippedCustomers
      = initialTracker.state.skippedCustomers :=
  c2_unregistered_immediate_failed config (fun _ => .notRegistered) testCustomer
    initialTracker 0 rfl

set_option maxRecDepth 100000 in
/-- C3: the configuration declares `maxMessagesPerHour = 100`, yet the
dispatch loop consults no hourly-quota gate (no such state exists in the
code): over 101 recipients it hands the transport 101 send attempts —
the 101st is not blocked, regardless of elapsed time. -/
theorem c3_no_hourly_gate_all_attempted :
    config.rateLimiting.maxMessagesPerHour = 100 ∧
    (sendMessagesToCustomers config (fun _ _ => .delivered) (fun _ => 0)
        (List.replicate 101 testCustomer)).sendAttempts = 101 ∧
    (sendMessagesToCustomers config (fun _ _ => .delivered) (fun _ => 0)
        (List.replicate 101 testCustomer)).tracker.state.successfulSends = 101 := by
  decide

/- ### Helper lemma for the retry claim -/

lemma sendMessageWithRetryGo_const_failure (cfg : Config) (msg : String)
    (c : ProcessedCustomer) :
    ∀ (remaining attempt : Nat) (lastError : String), 0 < remaining →
      attempt + remaining = cfg.errorHandling.maxRetries + 1 →
      sendMessageWithRetryGo cfg (fun _ => .failure msg) c lastError attempt remaining =
        { result :=
            { customer := c, success := false, error := some msg
              retryCount := cfg.errorHandling.maxRetries }
          sleeps := List.replicate (remaining - 1) cfg.timing.retryDelay
          attemptsMade := remaining } := by
  intro remaining
  induction remaining with
  | zero =>
      intro attempt lastError hpos _
      exact absurd hpos (lt_irrefl 0)
  | succ k ih =>
      intro attempt lastError _ hsum
      by_cases hk : k = 0
      · subst hk
        have hmax : ¬ (attempt < cfg.errorHandling.maxRetries) := by omega
        simp [sendMessageWithRetryGo, hmax]
      · have hlt : attempt < cfg.errorHandling.maxRetries := by omega
        have hrec := ih (attempt + 1) msg (by omega) (by omega)
        simp [sendMessageWithRetryGo, hlt, hrec]
        obtain ⟨k', rfl⟩ : ∃ k', k = k' + 1 := ⟨k - 1, by omega⟩
        simp [List.replicate_succ]

/-- C4: a recipient whose transport throws a transient error at every
attempt gets exactly `maxRetries + 1` attempts, separated by exactly
`maxRetries` fixed `retryDelay` sleeps; the final result is a failure
carrying `retryCount = maxRetries`, and after the loop records it the
recipient appears in the failed-customers output. -/
theorem c4_transient_retry_then_fail (cfg : Config) (msg : String)
    (c : ProcessedCustomer) (t : Tracker) (d : Int) :
    (sendMessageWithRetry cfg (fun _ => .failure msg) c).attemptsMade =
      cfg.errorHandling.maxRetries + 1 ∧
    (sendMessageWithRetry cfg (fun _ => .failure msg) c).sleeps =
      List.replicate cfg.errorHandling.maxRetries cfg.timing.retryDelay ∧
    (sendMessageWithRetry cfg (fun _ => .failure msg) c).result.success = false ∧
    (sendMessageWithRetry cfg (fun _ => .failure msg) c).result.retryCount =
      cfg.errorHandling.maxRetries ∧
    c ∈ getFailedCustomers
      (recordResult t (sendMessageWithRetry cfg (fun _ => .failure msg) c).result d) := by
  have hrun := sendMessageWithRetryGo_const_failure cfg msg c
    (cfg.errorHandling.maxRetries + 1) 0 "" (by omega) (by omega)
  unfold sendMessageWithRetry
  rw [hrun]
  refine ⟨rfl, by simp, rfl, rfl, ?_⟩
  simp [getFailedCustomers, recordResult, List.filter_append]

/- ### Helper lemmas for pacing claims -/

lemma shouldTakeBatchBreak_succ (cfg : Config) (i : Nat) :
    shouldTakeBatchBreak cfg (i + 1) = true ↔ (i + 1) % cfg.timing.batchSize = 0 := by
  simp [shouldTakeBatchBreak]

lemma recordResult_currentBatch (t : Tracker) (r : MessageResult) (d : Int) :
    (recordResult t r d).state.currentBatch = t.state.currentBatch := by
  cases hr : r.success <;> simp [recordResult, hr]


/-- C5: for batch size `B > 0`, the pacing delay the loop takes after the
attempt at 0-based index `i` is exactly the batch-break duration — with
the batch counter incremented — precisely when `(i+1) % B = 0`; otherwise
the computed per-message delay is slept and the batch counter is
unchanged. -/
theorem c5_batch_break_pacing (cfg : Config) (transport : Nat → Nat → AttemptOutcome)
    (randoms : Nat → ℚ) (i : Nat) (c : ProcessedCustomer) (st : RunState)
    (hB : 0 < cfg.timing.batchSize) :
    (shouldTakeBatchBreak cfg (i + 1) = true ↔ (i + 1) % cfg.timing.batchSize = 0) ∧
    ((i + 1) % cfg.timing.batchSize = 0 →
      (campaignStep cfg transport randoms i c st).sleeps =
        st.sleeps ++ (sendMessageWithRetry cfg (transport i) c).sleeps ++
          [cfg.timing.delayBetweenBatches] ∧
      (campaignStep cfg transport randoms i c st).tracker.state.currentBatch =
        st.tracker.state.currentBatch + 1) ∧
    ((i + 1) % cfg.timing.batchSize ≠ 0 →
      (campaignStep cfg transport randoms i c st).sleeps =
        st.sleeps ++ (sendMessageWithRetry cfg (transport i) c).sleeps ++
          [getRandomDelay cfg (randoms i) (decide (i < 5))] ∧
      (campaignStep cfg transport randoms i c st).tracker.state.currentBatch =
        st.tracker.state.currentBatch) := by
  refine ⟨shouldTakeBatchBreak_succ cfg i, ?_, ?_⟩
  · intro h
    have hbb : shouldTakeBatchBreak cfg (i + 1) = true :=
      (shouldTakeBatchBreak_succ cfg i).mpr h
    constructor
    · simp [campaignStep, hbb]
    · simp [campaignStep, hbb, incrementBatch, recordResult_currentBatch]
  · intro h
    have hbb : shouldTakeBatchBreak cfg (i + 1) = false := by
      rcases Bool.eq_false_or_eq_true (shouldTakeBatchBreak cfg (i + 1)) with ht | hf
      · exact absurd ((shouldTakeBatchBreak_succ cfg i).mp ht) h
      · exact hf
    constructor
    · simp [campaignStep, hbb]
    · simp [campaignStep, hbb, recordResult_currentBatch]

/-- C5 witness: at the concrete configuration (`B = 20`) and index 19. -/
theorem c5_batch_break_witness :
    0 < config.timing.batchSize ∧
    ((shouldTakeBatchBreak config (19 + 1) = true ↔
        (19 + 1) % config.timing.batchSize = 0) ∧
     ((19 + 1) % config.timing.batchSize = 0 →
       (campaignStep config (fun _ _ => .delivered) (fun _ => 0) 19 testCustomer
           demoRunState).sleeps =
         demoRunState.sleeps ++
           (sendMessageWithRetry config ((fun _ _ => AttemptOutcome.delivered) 19)
             testCustomer).sleeps ++ [config.timing.delayBetweenBatches] ∧
       (campaignStep config (fun _ _ => .delivered) (fun _ => 0) 19 testCustomer
           demoRunState).tracker.state.currentBatch =
         demoRunState.tracker.state.currentBatch + 1) ∧
     ((19 + 1) % config.timing.batchSize ≠ 0 →
       (campaignStep config (fun _ _ => .delivered) (fun _ => 0) 19 testCustomer
           demoRunState).sleeps =
         demoRunState.sleeps ++
           (sendMessageWithRetry config ((fun _ _ => AttemptOutcome.delivered) 19)
             testCustomer).sleeps ++
           [getRandomDelay config ((fun _ : Nat => (0 : ℚ)) 19) (decide (19 < 5))] ∧
       (campaignStep config (fun _ _ => .delivered) (fun _ => 0) 19 testCustomer
           demoRunState).tracker.state.currentBatch =
         demoRunState.tracker.state.currentBatch)) :=
  ⟨by decide,
   c5_batch_break_pacing config (fun _ _ => .delivered) (fun _ => 0) 19 testCustomer
     demoRunState (by decide)⟩

/-- C6: with the hardcoded warmup count 5, an index `i < 5` always gets
exactly the fixed warmup delay whatever the configured random bounds,
and an index `i ≥ 5` gets a computed delay inside the closed interval
`[min, max]` of `delayBetweenMessages`, for every random draw in
`[0, 1)`. -/
theorem c6_warmup_then_bounded_delay (cfg : Config) (i : Nat) (r : ℚ)
    (h0 : 0 ≤ r) (h1 : r < 1)
    (hmm : cfg.timing.delayBetweenMessagesMin ≤ cfg.timing.delayBetweenMessagesMax) :
    (i < 5 → getRandomDelay cfg r (decide (i < 5)) = cfg.timing.initialWarmupDelay) ∧
    (5 ≤ i →
      cfg.timing.delayBetweenMessagesMin ≤ getRandomDelay cfg r (decide (i < 5)) ∧
      getRandomDelay cfg r (decide (i < 5)) ≤ cfg.timing.delayBetweenMessagesMax) := by
  constructor
  · intro h
    have hd : decide (i < 5) = true := decide_eq_true h
    simp [getRandomDelay, hd]
  · intro h
    have hd : decide (i < 5) = false := decide_eq_false (by omega)
    simp only [getRandomDelay, hd, Bool.false_eq_true, if_false]
    set L : Int := cfg.timing.delayBetweenMessagesMax -
      cfg.timing.delayBetweenMessagesMin + 1 with hL
    have hLpos : (0 : Int) < L := by omega
    have hcast : (0 : ℚ) < (L : ℚ) := by exact_mod_cast hLpos
    have hflo : 0 ≤ Int.floor (r * (L : ℚ)) :=
      Int.floor_nonneg.mpr (mul_nonneg h0 hcast.le)
    have hfhi : Int.floor (r * (L : ℚ)) < L := by
      rw [Int.floor_lt]
      calc r * (L : ℚ) < 1 * (L : ℚ) := by
              exact mul_lt_mul_of_pos_right h1 hcast
        _ = (L : ℚ) := one_mul _
    constructor <;> omega

/-- C6 witness at index 7, draw `1/2`, the concrete configuration. -/
theorem c6_warmup_witness :
    (0 : ℚ) ≤ 1 / 2 ∧ (1 / 2 : ℚ) < 1 ∧
    config.timing.delayBetweenMessagesMin ≤ config.timing.delayBetweenMessagesMax ∧
    ((7 < 5 → getRandomDelay config (1 / 2) (decide (7 < 5)) =
        config.timing.initialWarmupDelay) ∧
     (5 ≤ 7 →
       config.timing.delayBetweenMessagesMin ≤
         getRandomDelay config (1 / 2) (decide (7 < 5)) ∧
       getRandomDelay config (1 / 2) (decide (7 < 5)) ≤
         config.timing.delayBetweenMessagesMax)) :=
  ⟨by norm_num, by norm_num, by decide,
   c6_warmup_then_bounded_delay config 7 (1 / 2) (by norm_num) (by norm_num) (by decide)⟩

/- ### Helper lemmas for the duplicate-handling claim -/

lemma sendMessageWithRetry_delivered (cfg : Config) (c : ProcessedCustomer) :
    sendMessageWithRetry cfg (fun _ => .delivered) c =
      { result := { customer := c, success := true, error := none, retryCount := 0 }
        sleeps := [], attemptsMade := 1 } := by
  simp [sendMessageWithRetry, sendMessageWithRetryGo]

lemma campaignStep_counters (cfg : Config) (transport : Nat → Nat → AttemptOutcome)
    (randoms : Nat → ℚ) (i : Nat) (c : ProcessedCustomer) (st : RunState) :
    (campaignStep cfg transport randoms i c st).tracker.state.successfulSends =
      st.tracker.state.successfulSends +
        (if (sendMessageWithRetry cfg (transport i) c).result.success then 1 else 0) ∧
    (campaignStep cfg transport randoms i c st).tracker.state.failedSends =
      st.tracker.state.failedSends +
        (if (sendMessageWithRetry cfg (transport i) c).result.success then 0 else 1) ∧
    (campaignStep cfg transport randoms i c st).tracker.state.skippedCustomers =
      st.tracker.state.skippedCustomers := by
  rcases recordResult_counters st.tracker (sendMessageWithRetry cfg (transport i) c).result
    (getRandomDelay cfg (randoms i) (decide (i < 5))) with ⟨_, h2, h3, h4⟩
  by_cases hbb : shouldTakeBatchBreak cfg (i + 1) = true
  · simp [campaignStep, hbb, incrementBatch, h2, h3, h4]
  · rw [Bool.not_eq_true] at hbb
    simp [campaignStep, hbb, h2, h3, h4]


/-- C7 counterexample: two recipients sharing `formattedPhone` are both
attempted by the dispatch loop — the second ends successful, not
Skipped(duplicate): after the run `successful = 2` and `skipped = 0`
(and `ProgressState` carries no duplicates counter at all). -/
theorem c7_counterexample_second_duplicate_not_skipped :
    testCustomer.formattedPhone = testCustomerB.formattedPhone ∧
    (sendMessagesToCustomers config (fun _ _ => .delivered) (fun _ => 0)
        [testCustomer, testCustomerB]).tracker.state.successfulSends = 2 ∧
    (sendMessagesToCustomers config (fun _ _ => .delivered) (fun _ => 0)
        [testCustomer, testCustomerB]).tracker.state.skippedCustomers = 0 ∧
    (sendMessagesToCustomers config (fun _ _ => .delivered) (fun _ => 0)
        [testCustomer, testCustomerB]).sendAttempts = 2 := by
  decide

/-- C7 (amended): duplicate handling lives in the CSV parser, not the
dispatch loop, and keys on the customer `Code`: a row repeating an
earlier code is dropped during parsing (its code lands in the duplicate
set) and never reaches the loop, while the loop itself keeps no set of
dispatched addresses — two processed recipients sharing
`normalizedAddress` are both attempted, ending with two successes, zero
skipped and zero failed. -/
theorem c7_duplicates_filtered_at_parse (cfg : Config) (randoms : Nat → ℚ)
    (c1 c2 : Customer) (hcode : c2.Code = c1.Code)
    (p1 p2 : ProcessedCustomer) (hphone : p1.formattedPhone = p2.formattedPhone) :
    (parseCSV [c1, c2]).1 = [c1] ∧
    (parseCSV [c1, c2]).2 = [c2.Code] ∧
    (sendMessagesToCustomers cfg (fun _ _ => .delivered) randoms
        [p1, p2]).tracker.state.successfulSends = 2 ∧
    (sendMessagesToCustomers cfg (fun _ _ => .delivered) randoms
        [p1, p2]).tracker.state.skippedCustomers = 0 ∧
    (sendMessagesToCustomers cfg (fun _ _ => .delivered) randoms
        [p1, p2]).tracker.state.failedSends = 0 := by
  refine ⟨?_, ?_, ?_, ?_, ?_⟩
  · simp [parseCSV, parseCSVRows, hcode]
  · simp [parseCSV, parseCSVRows, hcode]
  all_goals {
    have henum : ([p1, p2] : List ProcessedCustomer).enum = [(0, p1), (1, p2)] := rfl
    have h1 := campaignStep_counters cfg (fun _ _ => .delivered) randoms 0 p1
      { tracker := initProgress initialTracker ([p1, p2] : List ProcessedCustomer).length
        sleeps := [], sendAttempts := 0 }
    have h2 := campaignStep_counters cfg (fun _ _ => .delivered) randoms 1 p2
      (campaignStep cfg (fun _ _ => .delivered) randoms 0 p1
        { tracker := initProgress initialTracker ([p1, p2] : List ProcessedCustomer).length
          sleeps := [], sendAttempts := 0 })
    rw [sendMessageWithRetry_delivered] at h1 h2
    simp only [sendMessagesToCustomers, henum, List.foldl]
    rcases h1 with ⟨h1s, h1f, h1k⟩
    rcases h2 with ⟨h2s, h2f, h2k⟩
    first
      | (rw [h2s, h1s]; simp [initProgress, initialTracker, initialProgressState])
      | (rw [h2f, h1f]; simp [initProgress, initialTracker, initialProgressState])
      | (rw [h2k, h1k]; simp [initProgress, initialTracker, initialProgressState])
  }

/-- C7 amended-claim witness at concrete rows and recipients. -/
theorem c7_duplicates_witness :
    ({ Code := "1001", CustomerName := "B", Phone := "2", Mobile := "" } : Customer).Code =
      ({ Code := "1001", CustomerName := "A", Phone := "1", Mobile := "" } : Customer).Code ∧
    testCustomer.formattedPhone = testCustomerB.formattedPhone ∧
    ((parseCSV [{ Code := "1001", CustomerName := "A", Phone := "1", Mobile := "" },
                { Code := "1001", CustomerName := "B", Phone := "2", Mobile := "" }]).1 =
      [{ Code := "1001", CustomerName := "A", Phone := "1", Mobile := "" }] ∧
     (parseCSV [{ Code := "1001", CustomerName := "A", Phone := "1", Mobile := "" },
                { Code := "1001", CustomerName := "B", Phone := "2", Mobile := "" }]).2 =
      [({ Code := "1001", CustomerName := "B", Phone := "2", Mobile := "" } : Customer).Code] ∧
     (sendMessagesToCustomers config (fun _ _ => .delivered) (fun _ => 0)
         [testCustomer, testCustomerB]).tracker.state.successfulSends = 2 ∧
     (sendMessagesToCustomers config (fun _ _ => .delivered) (fun _ => 0)
         [testCustomer, testCustomerB]).tracker.state.skippedCustomers = 0 ∧
     (sendMessagesToCustomers config (fun _ _ => .delivered) (fun _ => 0)
         [testCustomer, testCustomerB]).tracker.state.failedSends = 0) :=
  ⟨rfl, rfl,
   c7_duplicates_filtered_at_parse config (fun _ => 0)
     { Code := "1001", CustomerName := "A", Phone := "1", Mobile := "" }
     { Code := "1001", CustomerName := "B", Phone := "2", Mobile := "" } rfl
     testCustomer testCustomerB rfl⟩

/-- C8 counterexample: the only template selector of the program draws with
`Math.random`; with the draw 0 on three consecutive calls every call
yields the first template, so a run of `N = 3` consecutive calls does
not use each template exactly once — the round-robin guarantee fails. -/
theorem c8_counterexample_not_round_robin :
    messageTemplates.length = 3 ∧
    (List.range 3).map (fun _ => getRandomTemplate 0) =
      [messageTemplates.getD 0 "", messageTemplates.getD 0 "", messageTemplates.getD 0 ""] ∧
    ¬ (∀ t ∈ messageTemplates,
        ((List.range 3).map (fun _ => getRandomTemplate 0)).count t = 1) := by
  have hsel : getRandomTemplate 0 = messageTemplates.getD 0 "" := by
    simp [getRandomTemplate, messageTemplates, List.getD]
  have hrange : List.range 3 = [0, 1, 2] := by decide
  have hmap : (List.range 3).map (fun _ => getRandomTemplate 0) =
      [messageTemplates.getD 0 "", messageTemplates.getD 0 "", messageTemplates.getD 0 ""] := by
    rw [hrange]
    simp [hsel]
  refine ⟨rfl, hmap, ?_⟩
  intro h
  have h1 := h (messageTemplates.getD 1 "") (by decide)
  rw [hmap] at h1
  revert h1
  decide

/-- C8 (amended): template selection is uniform-random, not round-robin
(no rotation index exists in the code); the guarantee that survives is
that every call returns a member of the declared template list, for any
draw in `[0, 1)`. -/
theorem c8_random_template_in_list (r : ℚ) (h0 : 0 ≤ r) (h1 : r < 1) :
    getRandomTemplate r ∈ messageTemplates := by
  have hlen : ((messageTemplates.length : Nat) : ℚ) = 3 := by
    norm_num [messageTemplates]
  have hflo : 0 ≤ Int.floor (r * ((messageTemplates.length : Nat) : ℚ)) := by
    rw [hlen]
    exact Int.floor_nonneg.mpr (by positivity)
  have hfhi : Int.floor (r * ((messageTemplates.length : Nat) : ℚ)) < 3 := by
    rw [hlen, Int.floor_lt]
    calc r * (3 : ℚ) < 1 * 3 := by
          exact mul_lt_mul_of_pos_right h1 (by norm_num)
      _ = ((3 : Int) : ℚ) := by norm_num
  have hidx : Int.toNat (Int.floor (r * ((messageTemplates.length : Nat) : ℚ))) <
      messageTemplates.length := by
    have h3 : messageTemplates.length = 3 := rfl
    omega
  unfold getRandomTemplate
  have hpos : messageTemplates.length > 0 := by decide
  simp only [hpos, if_true]
  rw [List.getD_eq_getElem _ _ hidx]
  exact List.getElem_mem hidx

/-- C8 amended-claim witness at the draw `2/3`. -/
theorem c8_random_template_witness :
    (0 : ℚ) ≤ 2 / 3 ∧ (2 / 3 : ℚ) < 1 ∧ getRandomTemplate (2 / 3) ∈ messageTemplates :=
  ⟨by norm_num, by norm_num, c8_random_template_in_list (2 / 3) (by norm_num) (by norm_num)⟩

/- ### C9: checkpoint atomicity -/




/-- C9 counterexample: the trace of `saveProgress` writes the progress
file directly, so it is not a write-temp-then-rename save. -/
theorem c9_counterexample_save_not_atomic :
    ¬ writeTempThenRenameSave (saveProgress true initialProgressState) := by
  intro h
  exact h.1 (serializeProgress initialProgressState) (by simp [saveProgress])

/-- C9 (amended): every checkpoint save writes the full serialized
snapshot in a single `writeFileSync` straight onto the progress file,
overwriting it in place; the trace contains no rename, so no
temp-then-rename atomicity is provided. -/
theorem c9_save_writes_snapshot_in_place (dirExists : Bool) (s : ProgressState) :
    (saveProgress dirExists s).filter FsOp.isWrite =
      [FsOp.writeFile progressFile (serializeProgress s)] ∧
    (saveProgress dirExists s).filter FsOp.isRen = [] := by
  cases dirExists <;>
    simp [saveProgress, FsOp.isWrite, FsOp.isRen, List.filter]
